import Mathlib

/-!
Verification development for the chatbot backend service (`main.py`).

The embedding models:
* the environment configuration read at process start,
* the one-time database initialization (`initialize_database`) and the
  process-wide `supabase` handle,
* the token helpers `create_access_token` / `verify_token` /
  `get_current_user`, with the PyJWT signing layer idealized symbolically,
* the status route handlers `root` and `health`, including the
  ISO-8601 timestamp produced by `datetime.utcnow().isoformat()`.

Exceptions are made explicit with `Except`; the Python `None` of globals
and environment variables becomes `Option`.
-/

namespace ChatbotBackend

/-! ## Database startup (`initialize_database`, `supabase` global) -/

/-- The Supabase client object produced by `create_client(SUPABASE_URL, SUPABASE_KEY)`.
Only its identity matters to the routes (`supabase is not None`), so we keep
the two configuration values it was built from. -/
structure Client where
  url : Option String
  key : Option String
deriving DecidableEq, Repr

/-- The possible outcomes of the two fallible steps inside the `try` block of
`initialize_database`: `create_client` may raise, and the probe read
`supabase.table("users").select("id").limit(1).execute()` may raise. -/
inductive DbInitOutcome
  | createFails
  | readFails
  | readSucceeds
deriving DecidableEq, Repr

/-- `initialize_database` from `main.py`.  Inside a `try`, it first assigns
the global `supabase := create_client(url, key)` and then performs the probe
read; it returns `True` after a successful read, and any exception is caught
and turned into `return False`.  The result pair is
(new value of the global `supabase`, returned boolean); the global starts as
`None`, so when `create_client` itself raises it stays `none`, while when only
the read raises the global already holds the client. -/
def initialize_database (url key : Option String) :
    DbInitOutcome → Option Client × Bool
  | .createFails => (none, false)
  | .readFails => (some ⟨url, key⟩, false)
  | .readSucceeds => (some ⟨url, key⟩, true)

/-! ## Token service (`create_access_token`, `verify_token`, `get_current_user`) -/

/-- The JWT payload built by `create_access_token`: `user_id`, `username`,
and the `exp` timestamp (seconds). -/
structure Claim where
  user_id : String
  username : String
  exp : Nat
deriving DecidableEq, Repr

/-- Modelled from the spec: the HMAC-SHA256 signature produced by PyJWT's
HS256 signing (the library code is not part of this repository).  The MAC is
idealized symbolically: a signature is determined by, and determines, the
signing secret together with the signed payload, so two signatures agree
exactly when both the secret and the payload agree. -/
structure Sig where
  secret : String
  signed : Claim
deriving DecidableEq, Repr

/-- Modelled from the spec: the space of inbound token strings, as PyJWT's
decoder partitions it — strings that parse as a signed claim structure
(a payload plus a signature), and strings that do not parse at all. -/
inductive Token
  | wellFormed (payload : Claim) (sig : Sig)
  | garbage (raw : String)
deriving DecidableEq, Repr

/-- The error taxonomy of `jwt.decode`: `DecodeError` (the token cannot be
parsed as a claim structure), `InvalidSignatureError`, and
`ExpiredSignatureError`. -/
inductive JwtError
  | malformed
  | invalidSignature
  | expired
deriving DecidableEq, Repr

/-- Modelled from the spec: PyJWT's `jwt.encode(payload, secret, algorithm="HS256")` —
serialize the claim and sign it with the shared secret. -/
def jwt_encode (secret : String) (payload : Claim) : Token :=
  .wellFormed payload ⟨secret, payload⟩

/-- Modelled from the spec: PyJWT's `jwt.decode(token, secret, algorithms=["HS256"])`.
It first parses the token (failure: `malformed`), then checks the signature
against the shared secret (failure: `invalidSignature`), then checks the
registered `exp` claim against the verifier's clock with zero leeway, the
token being acceptable only while `exp` is strictly in the future
(failure: `expired`). -/
def jwt_decode (secret : String) (now : Nat) : Token → Except JwtError Claim
  | .garbage _ => .error .malformed
  | .wellFormed payload sig =>
      if sig ≠ (⟨secret, payload⟩ : Sig) then .error .invalidSignature
      else if payload.exp ≤ now then .error .expired
      else .ok payload

/-- `create_access_token` from `main.py`: build the payload
`{user_id, username, exp = now + 86400}` and sign it with `JWT_SECRET`. -/
def create_access_token (secret : String) (user_id username : String)
    (now : Nat) : Token :=
  jwt_encode secret ⟨user_id, username, now + 86400⟩

/-- `verify_token` from `main.py`: delegate to `jwt.decode` with the shared
secret. -/
def verify_token (secret : String) (now : Nat) (token : Token) :
    Except JwtError Claim :=
  jwt_decode secret now token

/-- How a failure escaping `get_current_user` reaches the HTTP client:
either an explicitly raised `HTTPException` carrying a status code and a
detail string, or an uncaught exception from `jwt.decode` that propagates
out of the handler unhandled. -/
inductive AuthFailure
  | httpError (status : Nat) (detail : String)
  | unhandled (e : JwtError)
deriving DecidableEq, Repr

/-- `get_current_user` from `main.py`.  `HTTPBearer(auto_error=False)` hands
the dependency `None` when no bearer credentials are present, in which case
the handler raises `HTTPException(401, "Authorization header required")`;
otherwise it returns `verify_token(credentials.credentials)` directly, so any
`jwt.decode` exception propagates uncaught. -/
def get_current_user (secret : String) (now : Nat) :
    Option Token → Except AuthFailure Claim
  | none => .error (.httpError 401 "Authorization header required")
  | some token =>
      match verify_token secret now token with
      | .ok c => .ok c
      | .error e => .error (.unhandled e)

/-- The HTTP status an `AuthFailure` is surfaced with: an `HTTPException`
carries its own status; an exception left uncaught by the handler is not
mapped to any chosen status by the code in this repository (FastAPI's
default turns it into a 500, not a 401). -/
def surfacedStatus : Except AuthFailure Claim → Option Nat
  | .error (.httpError s _) => some s
  | .error (.unhandled _) => none
  | .ok _ => none

/-! ## Timestamp formatting (`datetime.utcnow().isoformat()`) -/

/-- The fields of a Python `datetime` value. -/
structure DateTime where
  year : Nat
  month : Nat
  day : Nat
  hour : Nat
  minute : Nat
  second : Nat
  microsecond : Nat
deriving DecidableEq, Repr

/-- The invariants Python's `datetime` constructor maintains on a value
returned by `datetime.utcnow()`. -/
def DateTime.valid (dt : DateTime) : Prop :=
  1 ≤ dt.year ∧ dt.year ≤ 9999 ∧ 1 ≤ dt.month ∧ dt.month ≤ 12 ∧
  1 ≤ dt.day ∧ dt.day ≤ 31 ∧ dt.hour ≤ 23 ∧ dt.minute ≤ 59 ∧
  dt.second ≤ 59 ∧ dt.microsecond ≤ 999999

instance (dt : DateTime) : Decidable dt.valid := by
  unfold DateTime.valid; infer_instance

/-- The decimal digit character for `n % 10`, as fixed-width `%0kd`
formatting produces it. -/
def dchar (n : Nat) : Char := Nat.digitChar (n % 10)

/-- Zero-padded two-digit decimal rendering (`"%02d"`), for fields < 100. -/
def pad2 (n : Nat) : List Char := [dchar (n / 10), dchar n]

/-- Zero-padded four-digit decimal rendering (`"%04d"`), for fields < 10000. -/
def pad4 (n : Nat) : List Char :=
  [dchar (n / 1000), dchar (n / 100), dchar (n / 10), dchar n]

/-- Zero-padded six-digit decimal rendering (`"%06d"`), for fields < 1000000. -/
def pad6 (n : Nat) : List Char :=
  [dchar (n / 100000), dchar (n / 10000), dchar (n / 1000),
   dchar (n / 100), dchar (n / 10), dchar n]

/-- Python's `datetime.isoformat()`:
`YYYY-MM-DDTHH:MM:SS` followed by `.ffffff` exactly when the microsecond
field is nonzero. -/
def DateTime.isoformat (dt : DateTime) : String :=
  ⟨pad4 dt.year ++ '-' :: pad2 dt.month ++ '-' :: pad2 dt.day ++
   'T' :: pad2 dt.hour ++ ':' :: pad2 dt.minute ++ ':' :: pad2 dt.second ++
   (if dt.microsecond = 0 then [] else '.' :: pad6 dt.microsecond)⟩

/-- One position of an expected character pattern: a decimal digit, or a
fixed literal character. -/
inductive MaskItem
  | digit
  | lit (c : Char)
deriving DecidableEq, Repr

/-- Whether one character matches one pattern position. -/
def matches1 : MaskItem → Char → Bool
  | .digit, c => c.isDigit
  | .lit c0, c => c = c0

/-- Whether a character list matches a pattern position by position, with
equal lengths. -/
def matchesMask : List MaskItem → List Char → Bool
  | [], [] => true
  | m :: ms, c :: cs => matches1 m c && matchesMask ms cs
  | _, _ => false

/-- The shape `YYYY-MM-DDTHH:MM:SS` of an ISO-8601 UTC timestamp without a
fractional part. -/
def isoMaskSeconds : List MaskItem :=
  [.digit, .digit, .digit, .digit, .lit '-', .digit, .digit, .lit '-',
   .digit, .digit, .lit 'T', .digit, .digit, .lit ':', .digit, .digit,
   .lit ':', .digit, .digit]

/-- The shape `YYYY-MM-DDTHH:MM:SS.ffffff` of an ISO-8601 UTC timestamp with
a microsecond fractional part. -/
def isoMaskMicro : List MaskItem :=
  isoMaskSeconds ++ .lit '.' :: List.replicate 6 .digit

/-- A string is a well-formed ISO-8601 timestamp as `datetime.isoformat()`
emits them: either the 19-character second-resolution shape or the
26-character microsecond-resolution shape. -/
def iso8601WellFormed (s : String) : Prop :=
  matchesMask isoMaskSeconds s.data = true ∨ matchesMask isoMaskMicro s.data = true

instance (s : String) : Decidable (iso8601WellFormed s) := by
  unfold iso8601WellFormed; infer_instance

/-! ## Status routes (`root`, `health`) -/

/-- The process-wide state the two status handlers read: the `supabase`
global left by `initialize_database`, and the `COHERE_API_KEY` environment
value read at import time (`os.getenv` gives `None` when the variable is
unset, otherwise the string, possibly empty). -/
structure AppState where
  supabase : Option Client
  cohere_api_key : Option String
deriving DecidableEq, Repr

/-- The JSON body returned by `GET /`. -/
structure RootResponse where
  success : Bool
  message : String
  database_connected : Bool
  ai_available : Bool
deriving DecidableEq, Repr

/-- The JSON body returned by `GET /health`. -/
structure HealthResponse where
  status : String
  database_connected : Bool
  ai_available : Bool
  time : String
deriving DecidableEq, Repr

/-- The handler for `GET /` in `main.py`.  `database_connected` is the
expression `supabase is not None`; `ai_available` is
`COHERE_API_KEY is not None`.  FastAPI returns the dict with its default
status code 200, which we pair with the body. -/
def root (st : AppState) : Nat × RootResponse :=
  (200,
   { success := true
     message := "InsideOut Chatbot API is running on Railway!"
     database_connected := st.supabase.isSome
     ai_available := st.cohere_api_key.isSome })

/-- The handler for `GET /health` in `main.py`: the same two flag
expressions as `GET /`, a constant `"ok"` status field, and
`datetime.utcnow().isoformat()` as the `time` field, again with FastAPI's
default status code 200. -/
def health (st : AppState) (now : DateTime) : Nat × HealthResponse :=
  (200,
   { status := "ok"
     database_connected := st.supabase.isSome
     ai_available := st.cohere_api_key.isSome
     time := now.isoformat })

/-- The spec's reading of the AI flag ("checking whether configuration
values are non-empty"): true exactly when the credential is a non-empty
string. -/
def spec_ai_available (cohere_api_key : Option String) : Bool :=
  match cohere_api_key with
  | none => false
  | some s => !s.isEmpty

end ChatbotBackend

namespace ChatbotBackend

/-! ## Helper lemmas -/

/-- Fixed-width decimal rendering emits digit characters at every position. -/
theorem dchar_isDigit (n : Nat) : (dchar n).isDigit = true := by
  have h : n % 10 < 10 := Nat.mod_lt _ (by norm_num)
  unfold dchar
  set m := n % 10 with hm
  interval_cases m <;> rfl

/-- The timestamp produced by `DateTime.isoformat` always matches one of the
two ISO-8601 shapes. -/
theorem isoformat_wellFormed (dt : DateTime) : iso8601WellFormed dt.isoformat := by
  unfold iso8601WellFormed DateTime.isoformat
  by_cases h : dt.microsecond = 0
  · left
    simp [h, pad4, pad2, isoMaskSeconds, matchesMask, matches1, dchar_isDigit,
      String.data]
  · right
    simp [h, pad4, pad2, pad6, isoMaskSeconds, isoMaskMicro, matchesMask,
      matches1, dchar_isDigit, String.data, List.replicate]

end ChatbotBackend

namespace ChatbotBackend

/-! ## Claim theorems -/

/-- C6: the startup database probe returns true exactly when the minimal
read succeeds, and false in both exception cases (client creation raising,
or the read raising); since `initialize_database` is a total function of the
outcome, the exception never escapes and startup always completes. -/
theorem C6_probe_catches_all (url key : Option String) (o : DbInitOutcome) :
    (initialize_database url key o).2 = true ↔ o = .readSucceeds := by
  cases o <;> simp [initialize_database]

/-- C1 counterexample: when client creation succeeds but the probe read
raises, the probe returns `false`, yet `GET /` reports
`database_connected = true` — the flag is not the probe result. -/
theorem C1_counterexample :
    (initialize_database (some "u") (some "k") .readFails).2 = false ∧
    (root ⟨(initialize_database (some "u") (some "k") .readFails).1,
       none⟩).2.database_connected = true := by
  decide

/-- C1 amended: the `database_connected` field returned by `GET /` and
`GET /health` equals whether startup left a client handle in the `supabase`
global (`supabase is not None`), a value fixed at startup; probe success
implies the flag is true, but the flag can be true when the probe returned
false (client created, read failed). -/
theorem C1_amended_flag_is_handle_presence (url key : Option String)
    (o : DbInitOutcome) (ck : Option String) (now : DateTime) :
    ((root ⟨(initialize_database url key o).1, ck⟩).2.database_connected
        = ((initialize_database url key o).1).isSome) ∧
    ((health ⟨(initialize_database url key o).1, ck⟩ now).2.database_connected
        = ((initialize_database url key o).1).isSome) ∧
    ((initialize_database url key o).2 = true →
      (root ⟨(initialize_database url key o).1, ck⟩).2.database_connected
        = true) := by
  cases o <;> simp [initialize_database, root, health]

/-- C1 amended, witness: concrete instantiation at a successful probe. -/
theorem C1_amended_witness :
    (root ⟨(initialize_database (some "u") (some "k") .readSucceeds).1,
       none⟩).2.database_connected = true :=
  (C1_amended_flag_is_handle_presence (some "u") (some "k") .readSucceeds none
    ⟨2024, 1, 1, 0, 0, 0, 0⟩).2.2 (by decide)

/-- C2: for non-empty `user_id` and `username`, verifying (at issuance time,
with the same secret) the token issued by `create_access_token` succeeds and
returns the claim with the same `user_id` and `username` and with
`exp` = issuance time + 86400 seconds. -/
theorem C2_issue_verify_round_trip (secret u n : String) (t : Nat)
    (hu : u ≠ "") (hn : n ≠ "") :
    verify_token secret t (create_access_token secret u n t) =
      .ok ⟨u, n, t + 86400⟩ := by
  simp [verify_token, create_access_token, jwt_encode, jwt_decode]

/-- C2 witness: the round trip at a concrete user. -/
theorem C2_witness :
    verify_token "s" 1000 (create_access_token "s" "alice" "Alice" 1000) =
      .ok ⟨"alice", "Alice", 87400⟩ :=
  C2_issue_verify_round_trip "s" "alice" "Alice" 1000 (by decide) (by decide)

end ChatbotBackend

namespace ChatbotBackend

/-- C3: the exact error taxonomy of `verify_token`, the signature being
checked before expiry — it fails with `malformed` exactly on tokens that do
not parse as a claim structure, with `invalidSignature` exactly on parsed
tokens whose signature does not match the shared secret (so on every token
whose signature was altered), and with `expired` exactly on parsed,
correctly signed tokens whose `exp` has passed. -/
theorem C3_verify_error_taxonomy (secret : String) (now : Nat) (tok : Token) :
    (verify_token secret now tok = .error .malformed ↔
      ∃ raw, tok = .garbage raw) ∧
    (verify_token secret now tok = .error .invalidSignature ↔
      ∃ p s, tok = .wellFormed p s ∧ s ≠ (⟨secret, p⟩ : Sig)) ∧
    (verify_token secret now tok = .error .expired ↔
      ∃ p, tok = .wellFormed p ⟨secret, p⟩ ∧ p.exp ≤ now) := by
  cases tok with
  | garbage raw => simp [verify_token, jwt_decode]
  | wellFormed p s =>
      simp only [verify_token, jwt_decode]
      split_ifs with hs he
      · refine ⟨by simp, iff_of_true rfl ⟨p, s, rfl, hs⟩, ?_⟩
        constructor
        · intro h; simp at h
        · rintro ⟨p2, heq, -⟩
          obtain ⟨rfl, rfl⟩ := Token.wellFormed.inj heq
          exact absurd rfl hs
      · push_neg at hs
        subst hs
        refine ⟨by simp, ?_, iff_of_true rfl ⟨p, rfl, he⟩⟩
        constructor
        · intro h; simp at h
        · rintro ⟨p2, s2, heq, hne⟩
          obtain ⟨rfl, rfl⟩ := Token.wellFormed.inj heq
          exact absurd rfl hne
      · push_neg at hs
        subst hs
        refine ⟨by simp, ?_, ?_⟩
        · constructor
          · intro h; simp at h
          · rintro ⟨p2, s2, heq, hne⟩
            obtain ⟨rfl, rfl⟩ := Token.wellFormed.inj heq
            exact absurd rfl hne
        · constructor
          · intro h; simp at h
          · rintro ⟨p2, heq, hexp⟩
            obtain ⟨rfl, -⟩ := Token.wellFormed.inj heq
            omega

/-- C4: verification succeeds with claim `c` if and only if the token is the
well-formed token carrying `c` signed under the shared secret and the
verification time is strictly before `c.exp`; the outcome is a pure function
of (secret, time, token), so no other state participates. -/
theorem C4_validity_iff (secret : String) (now : Nat) (tok : Token)
    (c : Claim) :
    verify_token secret now tok = .ok c ↔
      tok = .wellFormed c ⟨secret, c⟩ ∧ now < c.exp := by
  cases tok with
  | garbage raw => simp [verify_token, jwt_decode]
  | wellFormed p s =>
      simp only [verify_token, jwt_decode]
      split_ifs with hs he
      · constructor
        · intro h; simp at h
        · rintro ⟨heq, -⟩
          obtain ⟨rfl, rfl⟩ := Token.wellFormed.inj heq
          exact absurd rfl hs
      · push_neg at hs
        subst hs
        constructor
        · intro h; simp at h
        · rintro ⟨heq, hlt⟩
          obtain ⟨rfl, -⟩ := Token.wellFormed.inj heq
          omega
      · push_neg at hs
        subst hs
        constructor
        · intro h
          obtain rfl := Except.ok.inj h
          exact ⟨rfl, by omega⟩
        · rintro ⟨heq, -⟩
          obtain ⟨rfl, -⟩ := Token.wellFormed.inj heq
          rfl

/-- C5 counterexample: with a bearer token present that fails verification,
`get_current_user` propagates the `jwt.decode` exception unhandled instead
of raising an `HTTPException`, so the failure is not surfaced with HTTP
status 401 by this code. -/
theorem C5_counterexample :
    get_current_user "s" 0 (some (.garbage "x")) =
      .error (.unhandled .malformed) ∧
    surfacedStatus (get_current_user "s" 0 (some (.garbage "x"))) ≠
      some 401 :=
  ⟨rfl, by decide⟩

/-- C5 amended: `get_current_user` raises `HTTPException` 401
("Authorization header required") when no bearer credentials are present;
otherwise its outcome is exactly that of direct `verify_token` on the same
token, with verification failures propagated as unhandled exceptions — which
this code never surfaces as HTTP 401. -/
theorem C5_amended_delegation (secret : String) (now : Nat) (tok : Token) :
    (get_current_user secret now none =
      .error (.httpError 401 "Authorization header required")) ∧
    (get_current_user secret now (some tok) =
      Except.mapError AuthFailure.unhandled (verify_token secret now tok)) ∧
    (surfacedStatus (get_current_user secret now (some tok)) ≠ some 401) := by
  refine ⟨rfl, ?_, ?_⟩ <;>
    cases h : verify_token secret now tok <;>
      simp [get_current_user, h, surfacedStatus, Except.mapError]

end ChatbotBackend

namespace ChatbotBackend

/-- C7 counterexample: with the AI credential configured as the empty
string, `GET /` reports `ai_available = true`, while the documented
non-empty-string check would report false. -/
theorem C7_counterexample :
    (root ⟨none, some ""⟩).2.ai_available = true ∧
    spec_ai_available (some "") = false := by
  decide

/-- C7 amended: the `ai_available` field returned by `GET /` and
`GET /health` is true if and only if the AI-provider credential
configuration value is present (the environment variable is set), even when
it is the empty string; it is false only when the variable is unset. -/
theorem C7_ai_flag_is_presence (sup : Option Client) (ck : Option String)
    (now : DateTime) :
    ((root ⟨sup, ck⟩).2.ai_available = ck.isSome) ∧
    ((health ⟨sup, ck⟩ now).2.ai_available = ck.isSome) := by
  simp [root, health]

/-- C8: for every dependency state, `GET /health` responds with HTTP status
200, a `status` field equal to "ok", and a `time` field matching the
ISO-8601 shape `datetime.isoformat()` emits; neither the status code nor
these fields depend on the dependency state. -/
theorem C8_health_always_ok (st : AppState) (dt : DateTime)
    (h : dt.valid) :
    (health st dt).1 = 200 ∧ (health st dt).2.status = "ok" ∧
    iso8601WellFormed (health st dt).2.time :=
  ⟨rfl, rfl, isoformat_wellFormed dt⟩

/-- C8 witness: the health response at a concrete state and clock value. -/
theorem C8_witness :
    (health ⟨none, none⟩ ⟨2024, 5, 6, 7, 8, 9, 10⟩).1 = 200 ∧
    (health ⟨none, none⟩ ⟨2024, 5, 6, 7, 8, 9, 10⟩).2.status = "ok" ∧
    iso8601WellFormed (health ⟨none, none⟩ ⟨2024, 5, 6, 7, 8, 9, 10⟩).2.time :=
  C8_health_always_ok ⟨none, none⟩ ⟨2024, 5, 6, 7, 8, 9, 10⟩ (by decide)

/-- C9: for every process state, `GET /` and `GET /health` report the same
`database_connected` value and the same `ai_available` value — both handlers
evaluate the same expressions over the same process-wide state. -/
theorem C9_handlers_agree (st : AppState) (now : DateTime) :
    ((root st).2.database_connected = (health st now).2.database_connected) ∧
    ((root st).2.ai_available = (health st now).2.ai_available) := by
  simp [root, health]

/-- C10: token issuance is total over all string inputs: for every
`user_id` and `username`, the empty string included, `create_access_token`
returns a well-formed signed token whose payload echoes the inputs with
`exp` = issuance time + 86400; no non-emptiness check is performed. -/
theorem C10_issuance_total (secret u n : String) (t : Nat) :
    ∃ p s, create_access_token secret u n t = Token.wellFormed p s ∧
      p.user_id = u ∧ p.username = n ∧ p.exp = t + 86400 :=
  ⟨⟨u, n, t + 86400⟩, ⟨secret, ⟨u, n, t + 86400⟩⟩, rfl, rfl, rfl, rfl⟩

end ChatbotBackend
